import Mathlib

/-!
Verification development for the sprite assembly subsystem of RigelEngine
(src/engine/sprite_factory.cpp).  The C++ code is shallowly embedded:
vectors become lists, the sprite-data cache becomes an association list
threaded through the operations, and every unchecked std::vector access is
embedded through Option (none marks an out-of-range access).  Collaborator
code that is declared outside the provided sources (the rendering system's
virtualToRealFrame, the draw-order category constants, the pixel-to-tile
conversion, the asset package) is either modelled from the specification or
abstracted as a parameter of the factory environment.
-/

namespace Rigel

/-- Embeds base::Vector: a 2D integer vector with x and y components. -/
structure Vec where
  x : Int
  y : Int
deriving DecidableEq, Repr

/-- Embeds an image as its pixel extents plus an opaque content tag; the
content tag stands for the pixel data, so equality of tags models equality
of image content. -/
structure Image where
  width : Int
  height : Int
  content : Nat
deriving DecidableEq, Repr

/-- Embeds base::Extents (a width and height pair). -/
structure Extents where
  width : Int
  height : Int
deriving DecidableEq, Repr

/-- Embeds Image.extents(): the pixel dimensions of an image. -/
def Image.extents (img : Image) : Extents :=
  { width := img.width, height := img.height }

/-- Embeds loader::ActorData::Frame: one source frame (image plus authored
draw offset). -/
structure Frame where
  mFrameImage : Image
  mDrawOffset : Vec
deriving DecidableEq, Repr

/-- Embeds loader::ActorData: all frames of one loaded actor part plus its
source draw index. -/
structure ActorData where
  mDrawIndex : Int
  mFrames : List Frame
deriving DecidableEq, Repr

/-- Embeds engine::SpriteFrame: a renderer texture (carrying the source
image content) plus a draw offset.  The renderer's texture creation is
content-preserving, so the texture is embedded as the image itself. -/
structure SpriteFrame where
  mImage : Image
  mDrawOffset : Vec
deriving DecidableEq, Repr

/-- Embeds data::ActorID.  The constructors are exactly the enumerators
referenced by sprite_factory.cpp; all remaining enumerators of the (larger,
externally declared) enum are represented by the catch-all constructor
`other`, which every switch in the file treats through its default case. -/
inductive ActorID where
  | BOSS_Episode_1
  | BOSS_Episode_3
  | BOSS_Episode_4
  | Big_green_cat_LEFT
  | Big_green_cat_RIGHT
  | Biological_enemy_debris
  | Blowing_fan
  | Blowing_fan_threads_on_top
  | Blue_bonus_globe_1
  | Blue_bonus_globe_2
  | Blue_bonus_globe_3
  | Blue_bonus_globe_4
  | Blue_fireball_FX
  | Blue_guard_LEFT
  | Blue_guard_RIGHT
  | Blue_guard_using_a_terminal
  | Bomb_dropping_spaceship
  | Bonus_globe_debris_1
  | Bonus_globe_debris_2
  | Bonus_globe_shell
  | Coke_can_debris_1
  | Coke_can_debris_2
  | Duke_LEFT
  | Duke_RIGHT
  | Duke_death_particles
  | Duke_flame_shot_down
  | Duke_flame_shot_left
  | Duke_flame_shot_right
  | Duke_flame_shot_up
  | Duke_laser_shot_horizontal
  | Duke_laser_shot_vertical
  | Duke_regular_shot_horizontal
  | Duke_regular_shot_vertical
  | Duke_rocket_down
  | Duke_rocket_left
  | Duke_rocket_right
  | Duke_rocket_up
  | Dukes_ship_LEFT
  | Dukes_ship_RIGHT
  | Dukes_ship_after_exiting_LEFT
  | Dukes_ship_after_exiting_RIGHT
  | Dukes_ship_exhaust_flames
  | Enemy_laser_muzzle_flash_1
  | Enemy_laser_muzzle_flash_2
  | Enemy_laser_shot_LEFT
  | Enemy_laser_shot_RIGHT
  | Explosion_FX_1
  | Explosion_FX_2
  | Eyeball_projectile
  | Eyeball_thrower_LEFT
  | Eyeball_thrower_RIGHT
  | Fire_bomb_fire
  | Flame_thrower_fire_LEFT
  | Flame_thrower_fire_RIGHT
  | Green_fireball_FX
  | Green_slime_blob
  | Green_slime_blob_flying_on_ceiling
  | Hoverbot
  | Hoverbot_debris_1
  | Hoverbot_debris_2
  | Hoverbot_teleport_FX
  | Lava_fountain
  | Messenger_drone_1
  | Messenger_drone_2
  | Messenger_drone_3
  | Messenger_drone_4
  | Messenger_drone_5
  | Messenger_drone_body
  | Messenger_drone_exhaust_flame_1
  | Messenger_drone_exhaust_flame_2
  | Messenger_drone_exhaust_flame_3
  | Messenger_drone_part_1
  | Messenger_drone_part_2
  | Messenger_drone_part_3
  | Metal_grabber_claw
  | Metal_grabber_claw_debris_1
  | Metal_grabber_claw_debris_2
  | Missile_debris
  | Missile_exhaust_flame
  | Missile_intact
  | Muzzle_flash_down
  | Muzzle_flash_left
  | Muzzle_flash_right
  | Muzzle_flash_up
  | Napalm_bomb
  | Nuclear_explosion
  | Nuclear_waste_can_debris_1
  | Nuclear_waste_can_debris_2
  | Nuclear_waste_can_debris_3
  | Nuclear_waste_can_debris_4
  | Nuclear_waste_can_green_slime_inside
  | Prisoner_hand_debris
  | Radar_computer_terminal
  | Reactor_fire_LEFT
  | Reactor_fire_RIGHT
  | Red_box_turkey
  | Rigelatin_soldier
  | Rigelatin_soldier_projectile
  | Rocket_elevator
  | Score_number_FX_100
  | Score_number_FX_10000
  | Score_number_FX_2000
  | Score_number_FX_500
  | Score_number_FX_5000
  | Sentry_robot_generator
  | Shot_impact_FX
  | Skeleton
  | Smoke_cloud_FX
  | Smoke_puff_FX
  | Snake
  | Spider
  | Spider_blowing_in_wind
  | Spider_debris_2
  | Spider_shaken_off
  | Spiked_green_creature_LEFT
  | Spiked_green_creature_RIGHT
  | Spiked_green_creature_eye_FX_LEFT
  | Spiked_green_creature_eye_FX_RIGHT
  | Spiked_green_creature_stone_debris_1_LEFT
  | Spiked_green_creature_stone_debris_1_RIGHT
  | Spiked_green_creature_stone_debris_2_LEFT
  | Spiked_green_creature_stone_debris_2_RIGHT
  | Spiked_green_creature_stone_debris_3_LEFT
  | Spiked_green_creature_stone_debris_3_RIGHT
  | Spiked_green_creature_stone_debris_4_LEFT
  | Spiked_green_creature_stone_debris_4_RIGHT
  | Super_force_field_LEFT
  | Teleporter_1
  | Teleporter_2
  | Turkey
  | Ugly_green_bird
  | Unicycle_bot
  | Watchbot_container
  | Watchbot_container_carrier
  | Watchbot_container_debris_1
  | Watchbot_container_debris_2
  | White_circle_flash_FX
  | Windblown_spider_generator
  | Yellow_fireball_FX
  | other (code : Nat)

/-- Injects ActorID into Nat; used to define decidable equality without a
derived instance. -/
def ActorID.toNat : ActorID → Nat
  | .BOSS_Episode_1 => 0
  | .BOSS_Episode_3 => 1
  | .BOSS_Episode_4 => 2
  | .Big_green_cat_LEFT => 3
  | .Big_green_cat_RIGHT => 4
  | .Biological_enemy_debris => 5
  | .Blowing_fan => 6
  | .Blowing_fan_threads_on_top => 7
  | .Blue_bonus_globe_1 => 8
  | .Blue_bonus_globe_2 => 9
  | .Blue_bonus_globe_3 => 10
  | .Blue_bonus_globe_4 => 11
  | .Blue_fireball_FX => 12
  | .Blue_guard_LEFT => 13
  | .Blue_guard_RIGHT => 14
  | .Blue_guard_using_a_terminal => 15
  | .Bomb_dropping_spaceship => 16
  | .Bonus_globe_debris_1 => 17
  | .Bonus_globe_debris_2 => 18
  | .Bonus_globe_shell => 19
  | .Coke_can_debris_1 => 20
  | .Coke_can_debris_2 => 21
  | .Duke_LEFT => 22
  | .Duke_RIGHT => 23
  | .Duke_death_particles => 24
  | .Duke_flame_shot_down => 25
  | .Duke_flame_shot_left => 26
  | .Duke_flame_shot_right => 27
  | .Duke_flame_shot_up => 28
  | .Duke_laser_shot_horizontal => 29
  | .Duke_laser_shot_vertical => 30
  | .Duke_regular_shot_horizontal => 31
  | .Duke_regular_shot_vertical => 32
  | .Duke_rocket_down => 33
  | .Duke_rocket_left => 34
  | .Duke_rocket_right => 35
  | .Duke_rocket_up => 36
  | .Dukes_ship_LEFT => 37
  | .Dukes_ship_RIGHT => 38
  | .Dukes_ship_after_exiting_LEFT => 39
  | .Dukes_ship_after_exiting_RIGHT => 40
  | .Dukes_ship_exhaust_flames => 41
  | .Enemy_laser_muzzle_flash_1 => 42
  | .Enemy_laser_muzzle_flash_2 => 43
  | .Enemy_laser_shot_LEFT => 44
  | .Enemy_laser_shot_RIGHT => 45
  | .Explosion_FX_1 => 46
  | .Explosion_FX_2 => 47
  | .Eyeball_projectile => 48
  | .Eyeball_thrower_LEFT => 49
  | .Eyeball_thrower_RIGHT => 50
  | .Fire_bomb_fire => 51
  | .Flame_thrower_fire_LEFT => 52
  | .Flame_thrower_fire_RIGHT => 53
  | .Green_fireball_FX => 54
  | .Green_slime_blob => 55
  | .Green_slime_blob_flying_on_ceiling => 56
  | .Hoverbot => 57
  | .Hoverbot_debris_1 => 58
  | .Hoverbot_debris_2 => 59
  | .Hoverbot_teleport_FX => 60
  | .Lava_fountain => 61
  | .Messenger_drone_1 => 62
  | .Messenger_drone_2 => 63
  | .Messenger_drone_3 => 64
  | .Messenger_drone_4 => 65
  | .Messenger_drone_5 => 66
  | .Messenger_drone_body => 67
  | .Messenger_drone_exhaust_flame_1 => 68
  | .Messenger_drone_exhaust_flame_2 => 69
  | .Messenger_drone_exhaust_flame_3 => 70
  | .Messenger_drone_part_1 => 71
  | .Messenger_drone_part_2 => 72
  | .Messenger_drone_part_3 => 73
  | .Metal_grabber_claw => 74
  | .Metal_grabber_claw_debris_1 => 75
  | .Metal_grabber_claw_debris_2 => 76
  | .Missile_debris => 77
  | .Missile_exhaust_flame => 78
  | .Missile_intact => 79
  | .Muzzle_flash_down => 80
  | .Muzzle_flash_left => 81
  | .Muzzle_flash_right => 82
  | .Muzzle_flash_up => 83
  | .Napalm_bomb => 84
  | .Nuclear_explosion => 85
  | .Nuclear_waste_can_debris_1 => 86
  | .Nuclear_waste_can_debris_2 => 87
  | .Nuclear_waste_can_debris_3 => 88
  | .Nuclear_waste_can_debris_4 => 89
  | .Nuclear_waste_can_green_slime_inside => 90
  | .Prisoner_hand_debris => 91
  | .Radar_computer_terminal => 92
  | .Reactor_fire_LEFT => 93
  | .Reactor_fire_RIGHT => 94
  | .Red_box_turkey => 95
  | .Rigelatin_soldier => 96
  | .Rigelatin_soldier_projectile => 97
  | .Rocket_elevator => 98
  | .Score_number_FX_100 => 99
  | .Score_number_FX_10000 => 100
  | .Score_number_FX_2000 => 101
  | .Score_number_FX_500 => 102
  | .Score_number_FX_5000 => 103
  | .Sentry_robot_generator => 104
  | .Shot_impact_FX => 105
  | .Skeleton => 106
  | .Smoke_cloud_FX => 107
  | .Smoke_puff_FX => 108
  | .Snake => 109
  | .Spider => 110
  | .Spider_blowing_in_wind => 111
  | .Spider_debris_2 => 112
  | .Spider_shaken_off => 113
  | .Spiked_green_creature_LEFT => 114
  | .Spiked_green_creature_RIGHT => 115
  | .Spiked_green_creature_eye_FX_LEFT => 116
  | .Spiked_green_creature_eye_FX_RIGHT => 117
  | .Spiked_green_creature_stone_debris_1_LEFT => 118
  | .Spiked_green_creature_stone_debris_1_RIGHT => 119
  | .Spiked_green_creature_stone_debris_2_LEFT => 120
  | .Spiked_green_creature_stone_debris_2_RIGHT => 121
  | .Spiked_green_creature_stone_debris_3_LEFT => 122
  | .Spiked_green_creature_stone_debris_3_RIGHT => 123
  | .Spiked_green_creature_stone_debris_4_LEFT => 124
  | .Spiked_green_creature_stone_debris_4_RIGHT => 125
  | .Super_force_field_LEFT => 126
  | .Teleporter_1 => 127
  | .Teleporter_2 => 128
  | .Turkey => 129
  | .Ugly_green_bird => 130
  | .Unicycle_bot => 131
  | .Watchbot_container => 132
  | .Watchbot_container_carrier => 133
  | .Watchbot_container_debris_1 => 134
  | .Watchbot_container_debris_2 => 135
  | .White_circle_flash_FX => 136
  | .Windblown_spider_generator => 137
  | .Yellow_fireball_FX => 138
  | .other n => n + 139

/-- Left inverse of ActorID.toNat. -/
def ActorID.ofNat : Nat → ActorID
  | 0 => .BOSS_Episode_1
  | 1 => .BOSS_Episode_3
  | 2 => .BOSS_Episode_4
  | 3 => .Big_green_cat_LEFT
  | 4 => .Big_green_cat_RIGHT
  | 5 => .Biological_enemy_debris
  | 6 => .Blowing_fan
  | 7 => .Blowing_fan_threads_on_top
  | 8 => .Blue_bonus_globe_1
  | 9 => .Blue_bonus_globe_2
  | 10 => .Blue_bonus_globe_3
  | 11 => .Blue_bonus_globe_4
  | 12 => .Blue_fireball_FX
  | 13 => .Blue_guard_LEFT
  | 14 => .Blue_guard_RIGHT
  | 15 => .Blue_guard_using_a_terminal
  | 16 => .Bomb_dropping_spaceship
  | 17 => .Bonus_globe_debris_1
  | 18 => .Bonus_globe_debris_2
  | 19 => .Bonus_globe_shell
  | 20 => .Coke_can_debris_1
  | 21 => .Coke_can_debris_2
  | 22 => .Duke_LEFT
  | 23 => .Duke_RIGHT
  | 24 => .Duke_death_particles
  | 25 => .Duke_flame_shot_down
  | 26 => .Duke_flame_shot_left
  | 27 => .Duke_flame_shot_right
  | 28 => .Duke_flame_shot_up
  | 29 => .Duke_laser_shot_horizontal
  | 30 => .Duke_laser_shot_vertical
  | 31 => .Duke_regular_shot_horizontal
  | 32 => .Duke_regular_shot_vertical
  | 33 => .Duke_rocket_down
  | 34 => .Duke_rocket_left
  | 35 => .Duke_rocket_right
  | 36 => .Duke_rocket_up
  | 37 => .Dukes_ship_LEFT
  | 38 => .Dukes_ship_RIGHT
  | 39 => .Dukes_ship_after_exiting_LEFT
  | 40 => .Dukes_ship_after_exiting_RIGHT
  | 41 => .Dukes_ship_exhaust_flames
  | 42 => .Enemy_laser_muzzle_flash_1
  | 43 => .Enemy_laser_muzzle_flash_2
  | 44 => .Enemy_laser_shot_LEFT
  | 45 => .Enemy_laser_shot_RIGHT
  | 46 => .Explosion_FX_1
  | 47 => .Explosion_FX_2
  | 48 => .Eyeball_projectile
  | 49 => .Eyeball_thrower_LEFT
  | 50 => .Eyeball_thrower_RIGHT
  | 51 => .Fire_bomb_fire
  | 52 => .Flame_thrower_fire_LEFT
  | 53 => .Flame_thrower_fire_RIGHT
  | 54 => .Green_fireball_FX
  | 55 => .Green_slime_blob
  | 56 => .Green_slime_blob_flying_on_ceiling
  | 57 => .Hoverbot
  | 58 => .Hoverbot_debris_1
  | 59 => .Hoverbot_debris_2
  | 60 => .Hoverbot_teleport_FX
  | 61 => .Lava_fountain
  | 62 => .Messenger_drone_1
  | 63 => .Messenger_drone_2
  | 64 => .Messenger_drone_3
  | 65 => .Messenger_drone_4
  | 66 => .Messenger_drone_5
  | 67 => .Messenger_drone_body
  | 68 => .Messenger_drone_exhaust_flame_1
  | 69 => .Messenger_drone_exhaust_flame_2
  | 70 => .Messenger_drone_exhaust_flame_3
  | 71 => .Messenger_drone_part_1
  | 72 => .Messenger_drone_part_2
  | 73 => .Messenger_drone_part_3
  | 74 => .Metal_grabber_claw
  | 75 => .Metal_grabber_claw_debris_1
  | 76 => .Metal_grabber_claw_debris_2
  | 77 => .Missile_debris
  | 78 => .Missile_exhaust_flame
  | 79 => .Missile_intact
  | 80 => .Muzzle_flash_down
  | 81 => .Muzzle_flash_left
  | 82 => .Muzzle_flash_right
  | 83 => .Muzzle_flash_up
  | 84 => .Napalm_bomb
  | 85 => .Nuclear_explosion
  | 86 => .Nuclear_waste_can_debris_1
  | 87 => .Nuclear_waste_can_debris_2
  | 88 => .Nuclear_waste_can_debris_3
  | 89 => .Nuclear_waste_can_debris_4
  | 90 => .Nuclear_waste_can_green_slime_inside
  | 91 => .Prisoner_hand_debris
  | 92 => .Radar_computer_terminal
  | 93 => .Reactor_fire_LEFT
  | 94 => .Reactor_fire_RIGHT
  | 95 => .Red_box_turkey
  | 96 => .Rigelatin_soldier
  | 97 => .Rigelatin_soldier_projectile
  | 98 => .Rocket_elevator
  | 99 => .Score_number_FX_100
  | 100 => .Score_number_FX_10000
  | 101 => .Score_number_FX_2000
  | 102 => .Score_number_FX_500
  | 103 => .Score_number_FX_5000
  | 104 => .Sentry_robot_generator
  | 105 => .Shot_impact_FX
  | 106 => .Skeleton
  | 107 => .Smoke_cloud_FX
  | 108 => .Smoke_puff_FX
  | 109 => .Snake
  | 110 => .Spider
  | 111 => .Spider_blowing_in_wind
  | 112 => .Spider_debris_2
  | 113 => .Spider_shaken_off
  | 114 => .Spiked_green_creature_LEFT
  | 115 => .Spiked_green_creature_RIGHT
  | 116 => .Spiked_green_creature_eye_FX_LEFT
  | 117 => .Spiked_green_creature_eye_FX_RIGHT
  | 118 => .Spiked_green_creature_stone_debris_1_LEFT
  | 119 => .Spiked_green_creature_stone_debris_1_RIGHT
  | 120 => .Spiked_green_creature_stone_debris_2_LEFT
  | 121 => .Spiked_green_creature_stone_debris_2_RIGHT
  | 122 => .Spiked_green_creature_stone_debris_3_LEFT
  | 123 => .Spiked_green_creature_stone_debris_3_RIGHT
  | 124 => .Spiked_green_creature_stone_debris_4_LEFT
  | 125 => .Spiked_green_creature_stone_debris_4_RIGHT
  | 126 => .Super_force_field_LEFT
  | 127 => .Teleporter_1
  | 128 => .Teleporter_2
  | 129 => .Turkey
  | 130 => .Ugly_green_bird
  | 131 => .Unicycle_bot
  | 132 => .Watchbot_container
  | 133 => .Watchbot_container_carrier
  | 134 => .Watchbot_container_debris_1
  | 135 => .Watchbot_container_debris_2
  | 136 => .White_circle_flash_FX
  | 137 => .Windblown_spider_generator
  | 138 => .Yellow_fireball_FX
  | (n + 139) => .other n

/-- ActorID.ofNat retracts ActorID.toNat. -/
theorem ActorID.ofNat_toNat : ∀ a : ActorID, ActorID.ofNat a.toNat = a := by
  intro a
  cases a <;> rfl

instance : DecidableEq ActorID := fun a b =>
  if h : a.toNat = b.toNat then
    Decidable.isTrue (by
      have h2 := congrArg ActorID.ofNat h
      rwa [ActorID.ofNat_toNat, ActorID.ofNat_toNat] at h2)
  else
    Decidable.isFalse (fun hab => h (by rw [hab]))

open ActorID

/-- Embeds engine::SpriteDrawData: the immutable composite draw data for one
logical actor (concatenated frames, optional orientation offset, virtual-to-
real frame remap table, layering key). -/
structure SpriteDrawData where
  mFrames : List SpriteFrame
  mOrientationOffset : Option Int
  mVirtualToRealFrameMap : List Int
  mDrawOrder : Int
deriving DecidableEq, Repr

/-- Embeds SpriteFactory::SpriteData: a cache entry holding the draw data
plus the per-part first-frame boundary list recorded during assembly. -/
structure SpriteData where
  mDrawData : SpriteDrawData
  mInitialFramesToRender : List Int
deriving DecidableEq, Repr

/-- Embeds engine::Sprite as used here: a reference to the cached draw data
(immutable, so embedded by value) plus the mutable frames-to-render list. -/
structure Sprite where
  pDrawData : SpriteDrawData
  mFramesToRender : List Int
deriving DecidableEq, Repr

/-- Embeds createFrameDrawData: wraps a source frame into a SpriteFrame.
The renderer argument only produces the owning texture, which carries the
source image content, so it is dropped from the embedding. -/
def createFrameDrawData (frameData : Frame) : SpriteFrame :=
  { mImage := frameData.mFrameImage, mDrawOffset := frameData.mDrawOffset }

/-- Embeds orientationOffsetForActor: the static per-actor orientation
offset table (lines 124-171 of sprite_factory.cpp). -/
def orientationOffsetForActor (actorId : ActorID) : Option Int :=
  match actorId with
  | Duke_LEFT | Duke_RIGHT => some 39
  | Snake => some 9
  | Eyeball_thrower_LEFT => some 10
  | Skeleton => some 4
  | Spider => some 13
  | Red_box_turkey => some 2
  | Rigelatin_soldier => some 4
  | Ugly_green_bird => some 3
  | Big_green_cat_LEFT | Big_green_cat_RIGHT => some 3
  | Spiked_green_creature_LEFT | Spiked_green_creature_RIGHT => some 6
  | Unicycle_bot => some 4
  | Dukes_ship_LEFT | Dukes_ship_RIGHT
  | Dukes_ship_after_exiting_LEFT | Dukes_ship_after_exiting_RIGHT => some 6
  | _ => none

/-- Embeds the static array SPIDER_FRAME_MAP. -/
def SPIDER_FRAME_MAP : List Int :=
  [3, 4, 5, 9, 10, 11, 6, 8, 9, 14, 15, 12, 13,
   0, 1, 2, 6, 7, 8, 6, 8, 9, 12, 13, 14, 15]

/-- Embeds the static array UNICYCLE_FRAME_MAP. -/
def UNICYCLE_FRAME_MAP : List Int :=
  [0, 5, 1, 2,
   0, 5, 3, 4]

/-- Embeds the static array DUKES_SHIP_FRAME_MAP. -/
def DUKES_SHIP_FRAME_MAP : List Int :=
  [0, 1, 10, 11, 8, 9,
   2, 3, 6, 7, 4, 5]

/-- Embeds frameMapForActor: the static per-actor virtual-to-real frame
remap table (lines 192-209); the default case is the empty view. -/
def frameMapForActor (actorId : ActorID) : List Int :=
  match actorId with
  | Spider => SPIDER_FRAME_MAP
  | Unicycle_bot => UNICYCLE_FRAME_MAP
  | Dukes_ship_LEFT | Dukes_ship_RIGHT
  | Dukes_ship_after_exiting_LEFT | Dukes_ship_after_exiting_RIGHT =>
    DUKES_SHIP_FRAME_MAP
  | _ => []

/-- Embeds actorIDListForActor: resolves a logical ActorID to the ordered
list of constituent part IDs (lines 212-324). -/
def actorIDListForActor (ID : ActorID) : List ActorID :=
  match ID with
  | Hoverbot => [Hoverbot, Hoverbot_teleport_FX]
  | Duke_LEFT | Duke_RIGHT => [Duke_LEFT, Duke_RIGHT]
  | Blue_bonus_globe_1 | Blue_bonus_globe_2
  | Blue_bonus_globe_3 | Blue_bonus_globe_4 => [ID, Bonus_globe_shell]
  | Teleporter_1 => [Teleporter_2]
  | Green_slime_blob => [Green_slime_blob, Green_slime_blob_flying_on_ceiling]
  | Eyeball_thrower_LEFT => [Eyeball_thrower_LEFT, Eyeball_thrower_RIGHT]
  | Bomb_dropping_spaceship => [Bomb_dropping_spaceship, Napalm_bomb]
  | Blowing_fan => [Blowing_fan, Blowing_fan_threads_on_top]
  | Missile_intact => [Missile_intact, Missile_exhaust_flame]
  | Blue_guard_LEFT | Blue_guard_using_a_terminal => [Blue_guard_RIGHT]
  | Enemy_laser_shot_LEFT | Enemy_laser_shot_RIGHT => [Enemy_laser_shot_RIGHT]
  | Red_box_turkey => [Turkey]
  | Messenger_drone_1 | Messenger_drone_2 | Messenger_drone_3
  | Messenger_drone_4 | Messenger_drone_5 =>
    [Messenger_drone_body, Messenger_drone_part_1, Messenger_drone_part_2,
     Messenger_drone_part_3, Messenger_drone_exhaust_flame_1,
     Messenger_drone_exhaust_flame_2, Messenger_drone_exhaust_flame_3, ID]
  | Big_green_cat_LEFT | Big_green_cat_RIGHT =>
    [Big_green_cat_LEFT, Big_green_cat_RIGHT]
  | Spiked_green_creature_LEFT | Spiked_green_creature_RIGHT =>
    [Spiked_green_creature_LEFT, Spiked_green_creature_RIGHT]
  | Dukes_ship_LEFT | Dukes_ship_RIGHT
  | Dukes_ship_after_exiting_LEFT | Dukes_ship_after_exiting_RIGHT =>
    [Dukes_ship_LEFT, Dukes_ship_RIGHT, Dukes_ship_exhaust_flames]
  | Watchbot_container_carrier =>
    [Watchbot_container_carrier, Watchbot_container]
  | _ => [ID]

/-- Modelled from the spec: engine::IGNORE_RENDER_SLOT, the skip sentinel
that may appear in a frames-to-render list, is declared outside the provided
sources; only its identity as a distinguished sentinel value matters here. -/
def IGNORE_RENDER_SLOT : Int := -1

/-- Embeds configureSprite: overwrites a freshly created Sprite's
frames-to-render list for identifiers present in the default-visible-frames
table (lines 327-422); identifiers absent from the table are left with the
assembly-time initial list. -/
def configureSprite (sprite : Sprite) (actorID : ActorID) : Sprite :=
  match actorID with
  | Hoverbot => { sprite with mFramesToRender := [0] }
  | Bomb_dropping_spaceship => { sprite with mFramesToRender := [3, 0, 1] }
  | Green_slime_blob => { sprite with mFramesToRender := [0] }
  | Eyeball_thrower_LEFT => { sprite with mFramesToRender := [0] }
  | Sentry_robot_generator => { sprite with mFramesToRender := [0, 4] }
  | Missile_intact => { sprite with mFramesToRender := [0] }
  | Metal_grabber_claw => { sprite with mFramesToRender := [1] }
  | Spider => { sprite with mFramesToRender := [6] }
  | Blue_guard_LEFT => { sprite with mFramesToRender := [6] }
  | BOSS_Episode_1 => { sprite with mFramesToRender := [0, 2] }
  | BOSS_Episode_3 =>
    { sprite with mFramesToRender := [IGNORE_RENDER_SLOT, 1, 0] }
  | BOSS_Episode_4 => { sprite with mFramesToRender := [0, 1] }
  | Rocket_elevator => { sprite with mFramesToRender := [5, 0] }
  | Blue_guard_using_a_terminal => { sprite with mFramesToRender := [12] }
  | Lava_fountain => { sprite with mFramesToRender := [] }
  | Radar_computer_terminal => { sprite with mFramesToRender := [0, 1, 2, 3] }
  | Watchbot_container => { sprite with mFramesToRender := [0, 1] }
  | Watchbot_container_carrier => { sprite with mFramesToRender := [0, 2] }
  | Super_force_field_LEFT => { sprite with mFramesToRender := [0, 3] }
  | Big_green_cat_LEFT | Big_green_cat_RIGHT
  | Spiked_green_creature_LEFT | Spiked_green_creature_RIGHT
  | Duke_LEFT | Duke_RIGHT
  | Dukes_ship_LEFT | Dukes_ship_RIGHT
  | Dukes_ship_after_exiting_LEFT | Dukes_ship_after_exiting_RIGHT =>
    { sprite with mFramesToRender := [0] }
  | _ => sprite

/-- Modelled from the spec: the named draw-order category constants
(PLAYER_PROJECTILE_DRAW_ORDER, MUZZLE_FLASH_DRAW_ORDER, EFFECT_DRAW_ORDER)
are declared outside the provided sources; the embedding abstracts over
their values. -/
structure DrawOrderConstants where
  PLAYER_PROJECTILE_DRAW_ORDER : Int
  MUZZLE_FLASH_DRAW_ORDER : Int
  EFFECT_DRAW_ORDER : Int
deriving DecidableEq, Repr

/-- Embeds the local constant SCALE_FACTOR of adjustedDrawOrder. -/
def SCALE_FACTOR : Int := 10

/-- Embeds adjustedDrawOrder (lines 425-507): maps an ActorID plus base
draw order to the final layering key, taking the externally declared
category constants as a parameter. -/
def adjustedDrawOrder
    (c : DrawOrderConstants) (id : ActorID) (baseDrawOrder : Int) : Int :=
  let scale := fun (drawOrderValue : Int) => drawOrderValue * SCALE_FACTOR
  match id with
  | Duke_rocket_up | Duke_rocket_down | Duke_rocket_left | Duke_rocket_right
  | Duke_laser_shot_horizontal | Duke_laser_shot_vertical
  | Duke_regular_shot_horizontal | Duke_regular_shot_vertical
  | Duke_flame_shot_up | Duke_flame_shot_down
  | Duke_flame_shot_left | Duke_flame_shot_right
  | Reactor_fire_LEFT | Reactor_fire_RIGHT =>
    scale c.PLAYER_PROJECTILE_DRAW_ORDER
  | Muzzle_flash_up | Muzzle_flash_down
  | Muzzle_flash_left | Muzzle_flash_right =>
    scale c.MUZZLE_FLASH_DRAW_ORDER
  | Explosion_FX_1 | Explosion_FX_2 | Shot_impact_FX | Smoke_puff_FX
  | Hoverbot_debris_1 | Hoverbot_debris_2
  | Nuclear_waste_can_debris_1 | Nuclear_waste_can_debris_2
  | Nuclear_waste_can_debris_3 | Nuclear_waste_can_debris_4
  | Flame_thrower_fire_RIGHT | Flame_thrower_fire_LEFT
  | Nuclear_explosion
  | Watchbot_container_debris_1 | Watchbot_container_debris_2
  | Fire_bomb_fire | Duke_death_particles
  | Bonus_globe_debris_1 | Bonus_globe_debris_2
  | White_circle_flash_FX | Nuclear_waste_can_green_slime_inside
  | Smoke_cloud_FX | Biological_enemy_debris | Missile_debris
  | Eyeball_projectile
  | Enemy_laser_muzzle_flash_1 | Enemy_laser_muzzle_flash_2
  | Metal_grabber_claw_debris_1 | Metal_grabber_claw_debris_2
  | Yellow_fireball_FX | Green_fireball_FX | Blue_fireball_FX
  | Coke_can_debris_1 | Coke_can_debris_2
  | Spiked_green_creature_eye_FX_LEFT | Spiked_green_creature_eye_FX_RIGHT
  | Spiked_green_creature_stone_debris_1_LEFT
  | Spiked_green_creature_stone_debris_2_LEFT
  | Spiked_green_creature_stone_debris_3_LEFT
  | Spiked_green_creature_stone_debris_4_LEFT
  | Spiked_green_creature_stone_debris_1_RIGHT
  | Spiked_green_creature_stone_debris_2_RIGHT
  | Spiked_green_creature_stone_debris_3_RIGHT
  | Spiked_green_creature_stone_debris_4_RIGHT
  | Spider_shaken_off | Windblown_spider_generator
  | Spider_debris_2 | Spider_blowing_in_wind
  | Prisoner_hand_debris | Rigelatin_soldier_projectile =>
    scale c.EFFECT_DRAW_ORDER
  | Score_number_FX_100 | Score_number_FX_500 | Score_number_FX_2000
  | Score_number_FX_5000 | Score_number_FX_10000 =>
    scale c.EFFECT_DRAW_ORDER
  | Napalm_bomb =>
    scale baseDrawOrder - 1
  | _ => scale baseDrawOrder

/-- Applies a function to the frame at index i.  The C++ source indexes the
vector without any bounds check; an out-of-range access is undefined
behaviour there and is marked by none in the embedding. -/
def modifyFrame (frames : List SpriteFrame) (i : Nat)
    (f : SpriteFrame → SpriteFrame) : Option (List SpriteFrame) :=
  match frames.get? i with
  | some fr => some (frames.set i (f fr))
  | none => none

/-- Inserts a frame before position i, embedding vector::insert at iterator
begin + i; an iterator past the end is undefined behaviour in the C++
source and is marked by none. -/
def insertFrameAt (frames : List SpriteFrame) (i : Nat)
    (fr : SpriteFrame) : Option (List SpriteFrame) :=
  if i ≤ frames.length then some (frames.take i ++ fr :: frames.drop i)
  else none

/-- Reads frame j of part p from the loaded part list, embedding the
unchecked accesses actorParts[p].mFrames[j] of the C++ source. -/
def partFrame (actorParts : List ActorData) (p j : Nat) : Option Frame :=
  match actorParts.get? p with
  | some part => part.mFrames.get? j
  | none => none

/-- Shifts a frame's draw offset by the given delta, embedding the
+= on mDrawOffset. -/
def shiftOffset (dx dy : Int) (fr : SpriteFrame) : SpriteFrame :=
  { fr with mDrawOffset :=
      { x := fr.mDrawOffset.x + dx, y := fr.mDrawOffset.y + dy } }

/-- Embeds the Duke player-sprite tweak: for i in 0..38 except 35 and 36,
shift the frame's X offset by -1, in loop order. -/
def applyDukeTweak (frames : List SpriteFrame) : Option (List SpriteFrame) :=
  (List.range 39).foldlM
    (fun fs i =>
      if i ≠ 35 ∧ i ≠ 36 then modifyFrame fs i (shiftOffset (-1) 0)
      else some fs)
    frames

/-- Embeds applyTweaks (lines 40-121): the post-assembly corrective pass,
with each unchecked vector access embedded through Option. -/
def applyTweaks (frames : List SpriteFrame) (actorId : ActorID)
    (actorParts : List ActorData) : Option (List SpriteFrame) := do
  let frames ←
    if actorId = Duke_LEFT ∨ actorId = Duke_RIGHT then
      applyDukeTweak frames
    else some frames
  let frames ←
    if actorId = Reactor_fire_LEFT ∨ actorId = Reactor_fire_RIGHT then
      modifyFrame frames 0
        (fun fr => { fr with mDrawOffset := { fr.mDrawOffset with x := 0 } })
    else some frames
  let frames :=
    if actorId = Radar_computer_terminal then
      frames.enum.map
        (fun p => if 8 ≤ p.1 then shiftOffset (-1) 0 p.2 else p.2)
    else frames
  let frames ←
    if actorId = Dukes_ship_LEFT ∨ actorId = Dukes_ship_RIGHT ∨
       actorId = Dukes_ship_after_exiting_LEFT ∨
       actorId = Dukes_ship_after_exiting_RIGHT then do
      let fr0 ← partFrame actorParts 2 0
      let frames ← insertFrameAt frames 8 (createFrameDrawData fr0)
      let fr1 ← partFrame actorParts 2 1
      let frames ← insertFrameAt frames 9 (createFrameDrawData fr1)
      let frames ← modifyFrame frames 8 (shiftOffset 1 0)
      modifyFrame frames 9 (shiftOffset 1 0)
    else some frames
  let frames ←
    if actorId = Bomb_dropping_spaceship then do
      let frames ← modifyFrame frames 3 (shiftOffset 2 0)
      some (frames.take 4)
    else some frames
  let frames ←
    if actorId = Watchbot_container_carrier then do
      let frames ← modifyFrame frames 2 (shiftOffset 0 (-2))
      some (frames.take 3)
    else some frames
  some frames

/-- Intermediate state of the assembly loop of createOrFindData
(lines 550-570): the concatenated frames, the recorded part-boundary list,
and the lastDrawOrder and lastFrameCount locals. -/
structure AsmState where
  frames : List SpriteFrame
  framesToRender : List Int
  lastDrawOrder : Int
  lastFrameCount : Int
deriving DecidableEq, Repr

/-- Embeds one iteration of the assembly loop body: record the draw index,
append one SpriteFrame per source frame, push the current lastFrameCount
onto the boundary list, then set lastFrameCount to the size of THIS part's
frame list (exactly as the source does on line 569). -/
def assembleStep (st : AsmState) (actorData : ActorData) : AsmState :=
  { frames := st.frames ++ actorData.mFrames.map createFrameDrawData
    framesToRender := st.framesToRender ++ [st.lastFrameCount]
    lastDrawOrder := actorData.mDrawIndex
    lastFrameCount := Int.ofNat actorData.mFrames.length }

/-- Embeds the whole assembly loop over the loaded parts, starting from the
initial locals (empty frames, empty boundary list, both counters zero). -/
def assemble (actorParts : List ActorData) : AsmState :=
  actorParts.foldl assembleStep
    { frames := [], framesToRender := [], lastDrawOrder := 0,
      lastFrameCount := 0 }

/-- The factory environment: the collaborators that the provided sources
consume but do not implement.  pkg embeds ActorImagePackage::loadActor (a
deterministic lookup for the process lifetime), consts the externally
declared draw-order category constants, and pixelExtentsToTileExtents the
unit conversion from data/unit_conversions.hpp. -/
structure Env where
  pkg : ActorID → ActorData
  consts : DrawOrderConstants
  pixelExtentsToTileExtents : Extents → Extents

/-- The sprite-data cache of SpriteFactory, embedded as an association
list keyed by ActorID. -/
abbrev Cache := List (ActorID × SpriteData)

/-- Embeds the cache lookup mSpriteDataCache.find(mainId). -/
def cacheFind (cache : Cache) (id : ActorID) : Option SpriteData :=
  match cache with
  | [] => none
  | (k, d) :: rest => if k = id then some d else cacheFind rest id

/-- Embeds the cache-miss branch of createOrFindData (lines 547-581):
resolve the part list, load each part, run the assembly loop, attach
orientation offset, remap table and adjusted draw order, then apply the
tweaks.  none marks an undefined out-of-range access inside applyTweaks. -/
def buildSpriteData (env : Env) (mainId : ActorID) : Option SpriteData := do
  let actorPartIds := actorIDListForActor mainId
  let actorParts := actorPartIds.map env.pkg
  let st := assemble actorParts
  let tweaked ← applyTweaks st.frames mainId actorParts
  some
    { mDrawData :=
        { mFrames := tweaked
          mOrientationOffset := orientationOffsetForActor mainId
          mVirtualToRealFrameMap := frameMapForActor mainId
          mDrawOrder := adjustedDrawOrder env.consts mainId st.lastDrawOrder }
      mInitialFramesToRender := st.framesToRender }

/-- Embeds SpriteFactory::createOrFindData (lines 543-585): return the
cached entry when present, otherwise build one and insert it.  The updated
cache is returned alongside the entry. -/
def createOrFindData (env : Env) (cache : Cache) (mainId : ActorID) :
    Option (SpriteData × Cache) :=
  match cacheFind cache mainId with
  | some d => some (d, cache)
  | none =>
    match buildSpriteData env mainId with
    | some d => some (d, (mainId, d) :: cache)
    | none => none

/-- Embeds SpriteFactory::createSprite (lines 522-527): build or reuse the
cache entry, construct a Sprite over it initialised with the recorded
boundary list, then apply the default-visible-frames configuration. -/
def createSprite (env : Env) (cache : Cache) (id : ActorID) :
    Option (Sprite × Cache) :=
  match createOrFindData env cache id with
  | some (data, cache) =>
    let sprite : Sprite :=
      { pDrawData := data.mDrawData
        mFramesToRender := data.mInitialFramesToRender }
    some (configureSprite sprite id, cache)
  | none => none

/-- Modelled from the spec: virtualToRealFrame is declared outside the
provided sources (the rendering system).  Spec 4.5: with an orientation
offset present and an orientation k supplied, the real index is
virtual + k * offset; with a non-empty remap table the real index is
table[virtual], bounds-checked against the table length; with neither, the
virtual index equals the real index. -/
def virtualToRealFrame (virtualFrame : Nat) (drawData : SpriteDrawData)
    (orientation : Option Nat) : Option Nat :=
  let shifted :=
    match drawData.mOrientationOffset, orientation with
    | some offset, some k => virtualFrame + k * offset.toNat
    | _, _ => virtualFrame
  if drawData.mVirtualToRealFrameMap = [] then
    some shifted
  else
    match drawData.mVirtualToRealFrameMap.get? shifted with
    | some real => some real.toNat
    | none => none

/-- Embeds SpriteFactory::actorFrameRect (lines 530-541): builds or reuses
the cache entry, resolves a real frame index by passing the literal 0 and
no orientation to virtualToRealFrame (exactly as the source does on
line 535), reads that frame and returns its draw offset together with its
extents converted to tile units. -/
def actorFrameRect (env : Env) (cache : Cache) (id : ActorID)
    (frame : Nat) : Option ((Vec × Extents) × Cache) := do
  let (data, cache) ← createOrFindData env cache id
  let realFrame ← virtualToRealFrame 0 data.mDrawData none
  let frameData ← data.mDrawData.mFrames.get? realFrame
  some ((frameData.mDrawOffset,
         env.pixelExtentsToTileExtents frameData.mImage.extents), cache)


/-! Concrete sample data used by witnesses and counterexamples. -/

/-- A sample image with content tag n. -/
def img (n : Nat) : Image :=
  { width := 8, height := 8, content := n }

/-- A sample source frame with image content n and X offset n. -/
def sampleFrame (n : Nat) : Frame :=
  { mFrameImage := img n, mDrawOffset := { x := Int.ofNat n, y := 0 } }

/-- Sample draw-order constants. -/
def constsEx : DrawOrderConstants :=
  { PLAYER_PROJECTILE_DRAW_ORDER := 1, MUZZLE_FLASH_DRAW_ORDER := 2,
    EFFECT_DRAW_ORDER := 3 }

/-- A sample asset package supplying the three parts of the mirrored-ship
composite with the frame counts documented in the source (2, 2 and 6) and
pairwise distinct image content. -/
def shipPkg : ActorID → ActorData := fun id =>
  match id with
  | Dukes_ship_LEFT => { mDrawIndex := 1, mFrames := [sampleFrame 0, sampleFrame 1] }
  | Dukes_ship_RIGHT => { mDrawIndex := 1, mFrames := [sampleFrame 2, sampleFrame 3] }
  | Dukes_ship_exhaust_flames =>
    { mDrawIndex := 2,
      mFrames := [sampleFrame 4, sampleFrame 5, sampleFrame 6,
                  sampleFrame 7, sampleFrame 8, sampleFrame 9] }
  | _ => { mDrawIndex := 0, mFrames := [] }

/-- A sample environment built over the ship package. -/
def envShip : Env :=
  { pkg := shipPkg, consts := constsEx, pixelExtentsToTileExtents := fun e => e }

/-- A minimal environment whose package supplies no frames at all. -/
def env0 : Env :=
  { pkg := fun _ => { mDrawIndex := 0, mFrames := [] }, consts := constsEx,
    pixelExtentsToTileExtents := fun e => e }

/-! Theorems settling the claims. -/

/-- C1: the claim states that actorFrameRect resolves the given virtual
frame index f and that the result depends on f whenever the identifier has
more than one frame.  The source instead passes the literal 0 to the
resolution call (line 535), leaving the frame argument entirely unused, so
the result never depends on the requested frame: for every environment,
cache, identifier and frame index the query returns exactly what it
returns for frame 0. -/
theorem actorFrameRect_ignores_frame_argument :
    ∀ (env : Env) (cache : Cache) (id : ActorID) (frame : Nat),
      actorFrameRect env cache id frame = actorFrameRect env cache id 0 := by
  intro env cache id frame
  rfl

/-- Definition following the spec's words, for comparison with the
recording performed by the source (refinement check for C2): the part
boundary recorded for part i is the total number of frames appended before
part i, i.e. the cumulative sum of the frame counts of parts 0..i-1. -/
def specPartBoundaries (parts : List ActorData) : List Int :=
  (List.range parts.length).map
    (fun i => Int.ofNat (((parts.take i).map (fun p => p.mFrames.length)).sum))

/-- C2: the claim states the recorded part-boundary list is the cumulative
frame-count sum.  The source (line 569) instead resets lastFrameCount to
the size of only the current part, so for the ship composite with part
frame counts 2, 2 and 6 it records [0, 2, 2] where the cumulative sum is
[0, 2, 4]: the third part's recorded boundary is wrong. -/
theorem assemble_boundaries_not_cumulative :
    (assemble ((actorIDListForActor Dukes_ship_LEFT).map shipPkg)).framesToRender
      = [0, 2, 2] ∧
    specPartBoundaries ((actorIDListForActor Dukes_ship_LEFT).map shipPkg)
      = [0, 2, 4] := by
  constructor
  · rfl
  · rfl

/-- C3 counterexample: the claim states that at most one of the two
virtual-to-real resolution mechanisms is present per identifier, but the
Spider identifier has a non-absent orientation offset (13) and a non-empty
explicit remap table at the same time. -/
theorem spider_has_both_resolution_mechanisms :
    orientationOffsetForActor Spider = some 13 ∧
    frameMapForActor Spider ≠ [] := by
  constructor
  · rfl
  · decide

/-- C3 amended: both mechanisms may be present for one identifier; in this
code every identifier with a non-empty remap table (Spider, Unicycle_bot
and the four ship identifiers) also carries an orientation offset, and when
both mechanisms are absent the virtual index equals the real index. -/
theorem frame_resolution_mechanisms :
    (∀ id : ActorID, frameMapForActor id ≠ [] →
       orientationOffsetForActor id ≠ none) ∧
    (∀ (v : Nat) (dd : SpriteDrawData) (o : Option Nat),
       dd.mOrientationOffset = none → dd.mVirtualToRealFrameMap = [] →
       virtualToRealFrame v dd o = some v) := by
  constructor
  · intro id h
    cases id <;>
      simp_all [frameMapForActor, orientationOffsetForActor,
        SPIDER_FRAME_MAP, UNICYCLE_FRAME_MAP, DUKES_SHIP_FRAME_MAP]
  · intro v dd o h1 h2
    simp [virtualToRealFrame, h1, h2]

/-- C3 amended, witness: the amended theorem applied at the Spider
identifier and at a concrete draw-data value with both mechanisms absent. -/
theorem frame_resolution_mechanisms_witness :
    orientationOffsetForActor Spider ≠ none ∧
    virtualToRealFrame 2
      { mFrames := [], mOrientationOffset := none,
        mVirtualToRealFrameMap := [], mDrawOrder := 0 } none = some 2 :=
  ⟨frame_resolution_mechanisms.1 Spider (by decide),
   frame_resolution_mechanisms.2 2
     { mFrames := [], mOrientationOffset := none,
       mVirtualToRealFrameMap := [], mDrawOrder := 0 } none rfl rfl⟩



/-- C4 counterexample: the claim states that after the mirrored-ship tweak
the frames at positions 8 and 9 equal positions 2 and 3 in image content.
With the documented part layout (counts 2, 2, 6) and pairwise distinct
images, position 8 carries the image of position 4 (the first exhaust-flame
frame), not the image of position 2. -/
theorem ship_tweak_copies_are_not_positions_2_3 :
    ∃ d, buildSpriteData envShip Dukes_ship_LEFT = some d ∧
      (d.mDrawData.mFrames.get? 8).map SpriteFrame.mImage = some (img 4) ∧
      (d.mDrawData.mFrames.get? 2).map SpriteFrame.mImage = some (img 2) ∧
      img 4 ≠ img 2 := by
  exact ⟨_, rfl, rfl, rfl, by decide⟩

/-- C4 amended: for the mirrored-ship composite resolved from three parts
with the documented frame counts (2, 2 and 6), the tweaked sequence has
exactly 12 frames, and the frames at positions 8 and 9 equal the frames at
positions 4 and 5 respectively in image content, each with an X draw offset
exactly 1 greater and the same Y offset. -/
theorem dukes_ship_frame_duplication :
    ∀ (env : Env) (dL dR dE : Int) (a0 a1 b0 b1 c0 c1 c2 c3 c4 c5 : Frame),
      env.pkg Dukes_ship_LEFT = { mDrawIndex := dL, mFrames := [a0, a1] } →
      env.pkg Dukes_ship_RIGHT = { mDrawIndex := dR, mFrames := [b0, b1] } →
      env.pkg Dukes_ship_exhaust_flames =
        { mDrawIndex := dE, mFrames := [c0, c1, c2, c3, c4, c5] } →
      ∃ d, buildSpriteData env Dukes_ship_LEFT = some d ∧
        d.mDrawData.mFrames.length = 12 ∧
        (∃ fr4 fr8, d.mDrawData.mFrames.get? 4 = some fr4 ∧
          d.mDrawData.mFrames.get? 8 = some fr8 ∧
          fr8.mImage = fr4.mImage ∧
          fr8.mDrawOffset.x = fr4.mDrawOffset.x + 1 ∧
          fr8.mDrawOffset.y = fr4.mDrawOffset.y) ∧
        (∃ fr5 fr9, d.mDrawData.mFrames.get? 5 = some fr5 ∧
          d.mDrawData.mFrames.get? 9 = some fr9 ∧
          fr9.mImage = fr5.mImage ∧
          fr9.mDrawOffset.x = fr5.mDrawOffset.x + 1 ∧
          fr9.mDrawOffset.y = fr5.mDrawOffset.y) := by
  intro env dL dR dE a0 a1 b0 b1 c0 c1 c2 c3 c4 c5 hL hR hE
  have hparts : (actorIDListForActor Dukes_ship_LEFT).map env.pkg =
      [{ mDrawIndex := dL, mFrames := [a0, a1] },
       { mDrawIndex := dR, mFrames := [b0, b1] },
       { mDrawIndex := dE, mFrames := [c0, c1, c2, c3, c4, c5] }] := by
    show [env.pkg Dukes_ship_LEFT, env.pkg Dukes_ship_RIGHT,
          env.pkg Dukes_ship_exhaust_flames] = _
    rw [hL, hR, hE]
  have hbuild : buildSpriteData env Dukes_ship_LEFT = some
      { mDrawData :=
          { mFrames :=
              [createFrameDrawData a0, createFrameDrawData a1,
               createFrameDrawData b0, createFrameDrawData b1,
               createFrameDrawData c0, createFrameDrawData c1,
               createFrameDrawData c2, createFrameDrawData c3,
               shiftOffset 1 0 (createFrameDrawData c0),
               shiftOffset 1 0 (createFrameDrawData c1),
               createFrameDrawData c4, createFrameDrawData c5]
            mOrientationOffset := some 6
            mVirtualToRealFrameMap := DUKES_SHIP_FRAME_MAP
            mDrawOrder := dE * SCALE_FACTOR }
        mInitialFramesToRender := [0, 2, 2] } := by
    simp only [buildSpriteData]
    rw [hparts]
    rfl
  exact ⟨_, hbuild, rfl,
    ⟨_, _, rfl, rfl, rfl, rfl, by simp [shiftOffset]⟩,
    ⟨_, _, rfl, rfl, rfl, rfl, by simp [shiftOffset]⟩⟩

/-- C4 amended, witness: the amended theorem applied to the concrete ship
environment. -/
theorem dukes_ship_frame_duplication_witness :
    ∃ d, buildSpriteData envShip Dukes_ship_LEFT = some d ∧
      d.mDrawData.mFrames.length = 12 ∧
      (∃ fr4 fr8, d.mDrawData.mFrames.get? 4 = some fr4 ∧
        d.mDrawData.mFrames.get? 8 = some fr8 ∧
        fr8.mImage = fr4.mImage ∧
        fr8.mDrawOffset.x = fr4.mDrawOffset.x + 1 ∧
        fr8.mDrawOffset.y = fr4.mDrawOffset.y) ∧
      (∃ fr5 fr9, d.mDrawData.mFrames.get? 5 = some fr5 ∧
        d.mDrawData.mFrames.get? 9 = some fr9 ∧
        fr9.mImage = fr5.mImage ∧
        fr9.mDrawOffset.x = fr5.mDrawOffset.x + 1 ∧
        fr9.mDrawOffset.y = fr5.mDrawOffset.y) :=
  dukes_ship_frame_duplication envShip 1 1 2
    (sampleFrame 0) (sampleFrame 1) (sampleFrame 2) (sampleFrame 3)
    (sampleFrame 4) (sampleFrame 5) (sampleFrame 6) (sampleFrame 7)
    (sampleFrame 8) (sampleFrame 9) rfl rfl rfl



/-- The case labels of the player-projectile category of adjustedDrawOrder
(lines 432-436). -/
def playerProjectileIDs : List ActorID :=
  [Duke_rocket_up, Duke_rocket_down, Duke_rocket_left, Duke_rocket_right,
   Duke_laser_shot_horizontal, Duke_laser_shot_vertical,
   Duke_regular_shot_horizontal, Duke_regular_shot_vertical,
   Duke_flame_shot_up, Duke_flame_shot_down,
   Duke_flame_shot_left, Duke_flame_shot_right,
   Reactor_fire_LEFT, Reactor_fire_RIGHT]

/-- The case labels of the muzzle-flash category (lines 438-439). -/
def muzzleFlashIDs : List ActorID :=
  [Muzzle_flash_up, Muzzle_flash_down, Muzzle_flash_left, Muzzle_flash_right]

/-- The case labels of the effect category (lines 441-491). -/
def effectDrawOrderIDs : List ActorID :=
  [Explosion_FX_1, Explosion_FX_2, Shot_impact_FX, Smoke_puff_FX,
   Hoverbot_debris_1, Hoverbot_debris_2,
   Nuclear_waste_can_debris_1, Nuclear_waste_can_debris_2,
   Nuclear_waste_can_debris_3, Nuclear_waste_can_debris_4,
   Flame_thrower_fire_RIGHT, Flame_thrower_fire_LEFT,
   Nuclear_explosion,
   Watchbot_container_debris_1, Watchbot_container_debris_2,
   Fire_bomb_fire, Duke_death_particles,
   Bonus_globe_debris_1, Bonus_globe_debris_2,
   White_circle_flash_FX, Nuclear_waste_can_green_slime_inside,
   Smoke_cloud_FX, Biological_enemy_debris, Missile_debris,
   Eyeball_projectile,
   Enemy_laser_muzzle_flash_1, Enemy_laser_muzzle_flash_2,
   Metal_grabber_claw_debris_1, Metal_grabber_claw_debris_2,
   Yellow_fireball_FX, Green_fireball_FX, Blue_fireball_FX,
   Coke_can_debris_1, Coke_can_debris_2,
   Spiked_green_creature_eye_FX_LEFT, Spiked_green_creature_eye_FX_RIGHT,
   Spiked_green_creature_stone_debris_1_LEFT,
   Spiked_green_creature_stone_debris_2_LEFT,
   Spiked_green_creature_stone_debris_3_LEFT,
   Spiked_green_creature_stone_debris_4_LEFT,
   Spiked_green_creature_stone_debris_1_RIGHT,
   Spiked_green_creature_stone_debris_2_RIGHT,
   Spiked_green_creature_stone_debris_3_RIGHT,
   Spiked_green_creature_stone_debris_4_RIGHT,
   Spider_shaken_off, Windblown_spider_generator,
   Spider_debris_2, Spider_blowing_in_wind,
   Prisoner_hand_debris, Rigelatin_soldier_projectile]

/-- The case labels of the score-number category (lines 493-498). -/
def scoreNumberIDs : List ActorID :=
  [Score_number_FX_100, Score_number_FX_500, Score_number_FX_2000,
   Score_number_FX_5000, Score_number_FX_10000]

/-- All identifiers adjustedDrawOrder treats specially (every case label of
its switch, including the dropped bomb). -/
def specialDrawOrderIDs : List ActorID :=
  playerProjectileIDs ++ muzzleFlashIDs ++ effectDrawOrderIDs ++
    scoreNumberIDs ++ [Napalm_bomb]

/-- C6: for every ActorID outside the special-category case labels the
classifier returns the base draw order scaled by 10; the dropped bomb of
the bomb-dropping composite gets the scaled base order minus one; and the
player-projectile, muzzle-flash, effect and score-number identifiers get a
fixed scaled category constant independent of the base order. -/
theorem adjustedDrawOrder_classification :
    (∀ (c : DrawOrderConstants) (id : ActorID) (b : Int),
       id ∉ specialDrawOrderIDs → adjustedDrawOrder c id b = b * 10) ∧
    (∀ (c : DrawOrderConstants) (b : Int),
       adjustedDrawOrder c Napalm_bomb b = b * 10 - 1) ∧
    (∀ (c : DrawOrderConstants) (b : Int) (id : ActorID),
       id ∈ playerProjectileIDs →
       adjustedDrawOrder c id b = c.PLAYER_PROJECTILE_DRAW_ORDER * 10) ∧
    (∀ (c : DrawOrderConstants) (b : Int) (id : ActorID),
       id ∈ muzzleFlashIDs →
       adjustedDrawOrder c id b = c.MUZZLE_FLASH_DRAW_ORDER * 10) ∧
    (∀ (c : DrawOrderConstants) (b : Int) (id : ActorID),
       id ∈ effectDrawOrderIDs ∨ id ∈ scoreNumberIDs →
       adjustedDrawOrder c id b = c.EFFECT_DRAW_ORDER * 10) := by
  refine ⟨?_, ?_, ?_, ?_, ?_⟩
  · intro c id b h
    cases id <;> first | rfl | exact absurd (by decide) h
  · intro c b
    rfl
  · intro c b id h
    fin_cases h <;> rfl
  · intro c b id h
    fin_cases h <;> rfl
  · intro c b id h
    rcases h with h | h <;> fin_cases h <;> rfl

/-- C6 witness: the classification theorem applied at concrete inputs, in
particular a generic actor with source draw index 5 yields 50 and the
dropped bomb with source draw index 5 yields 49. -/
theorem adjustedDrawOrder_classification_witness :
    adjustedDrawOrder constsEx Hoverbot 5 = 5 * 10 ∧
    adjustedDrawOrder constsEx Napalm_bomb 5 = 5 * 10 - 1 ∧
    adjustedDrawOrder constsEx Duke_rocket_up 7 =
      constsEx.PLAYER_PROJECTILE_DRAW_ORDER * 10 ∧
    adjustedDrawOrder constsEx Muzzle_flash_up 7 =
      constsEx.MUZZLE_FLASH_DRAW_ORDER * 10 ∧
    adjustedDrawOrder constsEx Explosion_FX_1 7 =
      constsEx.EFFECT_DRAW_ORDER * 10 :=
  ⟨adjustedDrawOrder_classification.1 constsEx Hoverbot 5 (by decide),
   adjustedDrawOrder_classification.2.1 constsEx 5,
   adjustedDrawOrder_classification.2.2.1 constsEx 7 Duke_rocket_up
     (by decide),
   adjustedDrawOrder_classification.2.2.2.1 constsEx 7 Muzzle_flash_up
     (by decide),
   adjustedDrawOrder_classification.2.2.2.2 constsEx 7 Explosion_FX_1
     (Or.inl (by decide))⟩



/-- Helper: after createOrFindData succeeds, the returned cache maps the
identifier to the returned entry, and re-running the call on the returned
cache is the identity. -/
theorem createOrFindData_stable :
    ∀ (env : Env) (cache : Cache) (id : ActorID) (d : SpriteData)
      (c1 : Cache),
      createOrFindData env cache id = some (d, c1) →
      cacheFind c1 id = some d ∧
      createOrFindData env c1 id = some (d, c1) := by
  intro env cache id d c1 h
  unfold createOrFindData at h ⊢
  cases hf : cacheFind cache id with
  | some d0 =>
    rw [hf] at h
    obtain ⟨rfl, rfl⟩ : d0 = d ∧ cache = c1 := by simpa using h
    refine ⟨hf, ?_⟩
    rw [hf]
  | none =>
    rw [hf] at h
    cases hb : buildSpriteData env id with
    | none =>
      rw [hb] at h
      exact absurd h (by simp)
    | some d0 =>
      rw [hb] at h
      obtain ⟨rfl, rfl⟩ : d0 = d ∧ (id, d0) :: cache = c1 := by simpa using h
      constructor
      · simp [cacheFind]
      · simp [cacheFind]

/-- C7: createOrFindData is memoizing: a second call with the identifier
whose entry the first call produced returns the same entry and leaves the
cache unchanged, and a repeated createSprite call returns the identical
Sprite (hence bit-identical SpriteDrawData) and the same cache. -/
theorem createOrFindData_memoizes :
    (∀ (env : Env) (cache : Cache) (id : ActorID) (d : SpriteData)
       (c1 : Cache),
       createOrFindData env cache id = some (d, c1) →
       createOrFindData env c1 id = some (d, c1)) ∧
    (∀ (env : Env) (cache : Cache) (id : ActorID) (s1 : Sprite)
       (c1 : Cache),
       createSprite env cache id = some (s1, c1) →
       createSprite env c1 id = some (s1, c1)) := by
  constructor
  · intro env cache id d c1 h
    exact (createOrFindData_stable env cache id d c1 h).2
  · intro env cache id s1 c1 h
    unfold createSprite at h ⊢
    cases hc : createOrFindData env cache id with
    | none =>
      rw [hc] at h
      exact absurd h (by simp)
    | some p =>
      obtain ⟨data, c⟩ := p
      rw [hc] at h
      obtain ⟨hs, rfl⟩ :
          configureSprite
            { pDrawData := data.mDrawData
              mFramesToRender := data.mInitialFramesToRender } id = s1 ∧
          c = c1 := by simpa using h
      rw [(createOrFindData_stable env cache id data c hc).2]
      simpa using hs

/-- Concrete cache entry produced for the unclassified identifier
ActorID.other 0 over the empty-package environment. -/
def d0ex : SpriteData :=
  { mDrawData :=
      { mFrames := [], mOrientationOffset := none,
        mVirtualToRealFrameMap := [], mDrawOrder := 0 }
    mInitialFramesToRender := [0] }

/-- Concrete one-entry cache holding d0ex. -/
def c0ex : Cache := [(ActorID.other 0, d0ex)]

/-- C7 witness: the memoization theorem applied to a concrete first call. -/
theorem createOrFindData_memoizes_witness :
    createOrFindData env0 [] (ActorID.other 0) = some (d0ex, c0ex) ∧
    createOrFindData env0 c0ex (ActorID.other 0) = some (d0ex, c0ex) :=
  ⟨rfl,
   createOrFindData_memoizes.1 env0 [] (ActorID.other 0) d0ex c0ex rfl⟩



/-- Helper: on a concatenated sequence of at least 4 frames, the
bomb-dropping-spaceship tweak succeeds and truncates to exactly 4 frames. -/
theorem applyTweaks_bomb_eq :
    ∀ (frames : List SpriteFrame) (parts : List ActorData),
      4 ≤ frames.length →
      ∃ res, applyTweaks frames Bomb_dropping_spaceship parts = some res ∧
        res.length = 4 := by
  intro frames parts h
  have h3 : 3 < frames.length := by omega
  obtain ⟨fr, hfr⟩ : ∃ fr, frames.get? 3 = some fr :=
    ⟨frames.get ⟨3, h3⟩, List.get?_eq_get h3⟩
  have hfr2 : frames[3]? = some fr := by
    rw [← List.get?_eq_getElem?]
    exact hfr
  refine ⟨(frames.set 3 (shiftOffset 2 0 fr)).take 4, ?_, ?_⟩
  · simp [applyTweaks, modifyFrame, hfr, hfr2]
  · rw [List.length_take, List.length_set]
    omega

/-- C8: for the bomb-dropping spaceship (the identifier whose tweak removes
all frames after index 3), whenever its own part supplies at least 4
frames, assembly succeeds and the tweaked sequence has length exactly 4. -/
theorem bomb_spaceship_truncation :
    ∀ (env : Env),
      4 ≤ (env.pkg Bomb_dropping_spaceship).mFrames.length →
      ∃ d, buildSpriteData env Bomb_dropping_spaceship = some d ∧
        d.mDrawData.mFrames.length = 4 := by
  intro env h
  have hfl : (assemble
      ((actorIDListForActor Bomb_dropping_spaceship).map env.pkg)).frames =
      (env.pkg Bomb_dropping_spaceship).mFrames.map createFrameDrawData ++
        (env.pkg Napalm_bomb).mFrames.map createFrameDrawData := rfl
  have hlen : 4 ≤ ((assemble
      ((actorIDListForActor Bomb_dropping_spaceship).map env.pkg)).frames).length := by
    rw [hfl]
    rw [List.length_append, List.length_map]
    omega
  obtain ⟨res, hres, hlen4⟩ :=
    applyTweaks_bomb_eq _
      ((actorIDListForActor Bomb_dropping_spaceship).map env.pkg) hlen
  have hb : buildSpriteData env Bomb_dropping_spaceship = some
      { mDrawData :=
          { mFrames := res
            mOrientationOffset :=
              orientationOffsetForActor Bomb_dropping_spaceship
            mVirtualToRealFrameMap :=
              frameMapForActor Bomb_dropping_spaceship
            mDrawOrder := adjustedDrawOrder env.consts Bomb_dropping_spaceship
              (assemble ((actorIDListForActor Bomb_dropping_spaceship).map
                env.pkg)).lastDrawOrder }
        mInitialFramesToRender :=
          (assemble ((actorIDListForActor Bomb_dropping_spaceship).map
            env.pkg)).framesToRender } := by
    simp only [buildSpriteData]
    rw [hres]
    rfl
  exact ⟨_, hb, hlen4⟩

/-- A sample asset package supplying four frames for the bomb-dropping
spaceship and none for anything else. -/
def bombPkg : ActorID → ActorData := fun id =>
  match id with
  | Bomb_dropping_spaceship =>
    { mDrawIndex := 5,
      mFrames := [sampleFrame 0, sampleFrame 1, sampleFrame 2, sampleFrame 3] }
  | _ => { mDrawIndex := 0, mFrames := [] }

/-- A sample environment built over the bomb package. -/
def envBomb : Env :=
  { pkg := bombPkg, consts := constsEx,
    pixelExtentsToTileExtents := fun e => e }

/-- C8 witness: the truncation theorem applied to the concrete bomb
environment. -/
theorem bomb_spaceship_truncation_witness :
    4 ≤ (envBomb.pkg Bomb_dropping_spaceship).mFrames.length ∧
    ∃ d, buildSpriteData envBomb Bomb_dropping_spaceship = some d ∧
      d.mDrawData.mFrames.length = 4 :=
  ⟨by decide, bomb_spaceship_truncation envBomb (by decide)⟩



/-- Helper: a successful createSprite call returns exactly the configured
Sprite built over some cache entry. -/
theorem createSprite_shape :
    ∀ (env : Env) (cache : Cache) (id : ActorID) (s : Sprite) (c2 : Cache),
      createSprite env cache id = some (s, c2) →
      ∃ data : SpriteData,
        s = configureSprite
          { pDrawData := data.mDrawData
            mFramesToRender := data.mInitialFramesToRender } id := by
  intro env cache id s c2 h
  unfold createSprite at h
  cases hc : createOrFindData env cache id with
  | none =>
    rw [hc] at h
    exact absurd h (by simp)
  | some p =>
    obtain ⟨data, c⟩ := p
    rw [hc] at h
    obtain ⟨hs, -⟩ :
        configureSprite
          { pDrawData := data.mDrawData
            mFramesToRender := data.mInitialFramesToRender } id = s ∧
        c = c2 := by simpa using h
    exact ⟨data, hs.symm⟩

/-- C9: for every identifier of the default-visible-frames table,
createSprite produces a Sprite whose frames-to-render list equals the
table's entry, in the table's order, including the skip sentinel of
BOSS_Episode_3; the custom-rendered Lava_fountain gets the explicitly
empty list. -/
theorem createSprite_default_visible_frames :
    ∀ (env : Env) (cache : Cache),
      (∀ (s : Sprite) (c2 : Cache),
         createSprite env cache Hoverbot = some (s, c2) →
         s.mFramesToRender = ([0] : List Int)) ∧
      (∀ (s : Sprite) (c2 : Cache),
         createSprite env cache Bomb_dropping_spaceship = some (s, c2) →
         s.mFramesToRender = ([3, 0, 1] : List Int)) ∧
      (∀ (s : Sprite) (c2 : Cache),
         createSprite env cache Green_slime_blob = some (s, c2) →
         s.mFramesToRender = ([0] : List Int)) ∧
      (∀ (s : Sprite) (c2 : Cache),
         createSprite env cache Eyeball_thrower_LEFT = some (s, c2) →
         s.mFramesToRender = ([0] : List Int)) ∧
      (∀ (s : Sprite) (c2 : Cache),
         createSprite env cache Sentry_robot_generator = some (s, c2) →
         s.mFramesToRender = ([0, 4] : List Int)) ∧
      (∀ (s : Sprite) (c2 : Cache),
         createSprite env cache Missile_intact = some (s, c2) →
         s.mFramesToRender = ([0] : List Int)) ∧
      (∀ (s : Sprite) (c2 : Cache),
         createSprite env cache Metal_grabber_claw = some (s, c2) →
         s.mFramesToRender = ([1] : List Int)) ∧
      (∀ (s : Sprite) (c2 : Cache),
         createSprite env cache Spider = some (s, c2) →
         s.mFramesToRender = ([6] : List Int)) ∧
      (∀ (s : Sprite) (c2 : Cache),
         createSprite env cache Blue_guard_LEFT = some (s, c2) →
         s.mFramesToRender = ([6] : List Int)) ∧
      (∀ (s : Sprite) (c2 : Cache),
         createSprite env cache BOSS_Episode_1 = some (s, c2) →
         s.mFramesToRender = ([0, 2] : List Int)) ∧
      (∀ (s : Sprite) (c2 : Cache),
         createSprite env cache BOSS_Episode_3 = some (s, c2) →
         s.mFramesToRender = ([IGNORE_RENDER_SLOT, 1, 0] : List Int)) ∧
      (∀ (s : Sprite) (c2 : Cache),
         createSprite env cache BOSS_Episode_4 = some (s, c2) →
         s.mFramesToRender = ([0, 1] : List Int)) ∧
      (∀ (s : Sprite) (c2 : Cache),
         createSprite env cache Rocket_elevator = some (s, c2) →
         s.mFramesToRender = ([5, 0] : List Int)) ∧
      (∀ (s : Sprite) (c2 : Cache),
         createSprite env cache Blue_guard_using_a_terminal = some (s, c2) →
         s.mFramesToRender = ([12] : List Int)) ∧
      (∀ (s : Sprite) (c2 : Cache),
         createSprite env cache Lava_fountain = some (s, c2) →
         s.mFramesToRender = ([] : List Int)) ∧
      (∀ (s : Sprite) (c2 : Cache),
         createSprite env cache Radar_computer_terminal = some (s, c2) →
         s.mFramesToRender = ([0, 1, 2, 3] : List Int)) ∧
      (∀ (s : Sprite) (c2 : Cache),
         createSprite env cache Watchbot_container = some (s, c2) →
         s.mFramesToRender = ([0, 1] : List Int)) ∧
      (∀ (s : Sprite) (c2 : Cache),
         createSprite env cache Watchbot_container_carrier = some (s, c2) →
         s.mFramesToRender = ([0, 2] : List Int)) ∧
      (∀ (s : Sprite) (c2 : Cache),
         createSprite env cache Super_force_field_LEFT = some (s, c2) →
         s.mFramesToRender = ([0, 3] : List Int)) ∧
      (∀ (s : Sprite) (c2 : Cache),
         createSprite env cache Big_green_cat_LEFT = some (s, c2) →
         s.mFramesToRender = ([0] : List Int)) ∧
      (∀ (s : Sprite) (c2 : Cache),
         createSprite env cache Big_green_cat_RIGHT = some (s, c2) →
         s.mFramesToRender = ([0] : List Int)) ∧
      (∀ (s : Sprite) (c2 : Cache),
         createSprite env cache Spiked_green_creature_LEFT = some (s, c2) →
         s.mFramesToRender = ([0] : List Int)) ∧
      (∀ (s : Sprite) (c2 : Cache),
         createSprite env cache Spiked_green_creature_RIGHT = some (s, c2) →
         s.mFramesToRender = ([0] : List Int)) ∧
      (∀ (s : Sprite) (c2 : Cache),
         createSprite env cache Duke_LEFT = some (s, c2) →
         s.mFramesToRender = ([0] : List Int)) ∧
      (∀ (s : Sprite) (c2 : Cache),
         createSprite env cache Duke_RIGHT = some (s, c2) →
         s.mFramesToRender = ([0] : List Int)) ∧
      (∀ (s : Sprite) (c2 : Cache),
         createSprite env cache Dukes_ship_LEFT = some (s, c2) →
         s.mFramesToRender = ([0] : List Int)) ∧
      (∀ (s : Sprite) (c2 : Cache),
         createSprite env cache Dukes_ship_RIGHT = some (s, c2) →
         s.mFramesToRender = ([0] : List Int)) ∧
      (∀ (s : Sprite) (c2 : Cache),
         createSprite env cache Dukes_ship_after_exiting_LEFT = some (s, c2) →
         s.mFramesToRender = ([0] : List Int)) ∧
      (∀ (s : Sprite) (c2 : Cache),
         createSprite env cache Dukes_ship_after_exiting_RIGHT = some (s, c2) →
         s.mFramesToRender = ([0] : List Int)) := by
  intro env cache
  repeat' constructor
  all_goals
    intro s c2 h
  all_goals
    obtain ⟨data, rfl⟩ := createSprite_shape _ _ _ _ _ h
  all_goals rfl


/-- C9 witness: the table theorem applied over the minimal environment to
an ordinary table entry, the entry containing the skip sentinel, and the
custom-rendered (empty-set) entry. -/
theorem createSprite_default_visible_frames_witness :
    (∃ s c2, createSprite env0 [] Hoverbot = some (s, c2) ∧
       s.mFramesToRender = ([0] : List Int)) ∧
    (∃ s c2, createSprite env0 [] BOSS_Episode_3 = some (s, c2) ∧
       s.mFramesToRender = ([IGNORE_RENDER_SLOT, 1, 0] : List Int)) ∧
    (∃ s c2, createSprite env0 [] Lava_fountain = some (s, c2) ∧
       s.mFramesToRender = ([] : List Int)) := by
  refine ⟨⟨_, _, rfl, ?_⟩, ⟨_, _, rfl, ?_⟩, ⟨_, _, rfl, ?_⟩⟩
  · exact (createSprite_default_visible_frames env0 []).1 _ _ rfl
  · exact
      (createSprite_default_visible_frames env0
        []).2.2.2.2.2.2.2.2.2.2.1 _ _ rfl
  · exact
      (createSprite_default_visible_frames env0
        []).2.2.2.2.2.2.2.2.2.2.2.2.2.2.1 _ _ rfl

/-- Helper: the assembly loop records exactly one boundary entry per
processed part. -/
theorem assemble_framesToRender_length :
    ∀ (parts : List ActorData) (st : AsmState),
      ((parts.foldl assembleStep st).framesToRender).length =
        st.framesToRender.length + parts.length := by
  intro parts
  induction parts with
  | nil =>
    intro st
    simp
  | cons p ps ih =>
    intro st
    rw [List.foldl_cons, ih]
    simp [assembleStep]
    omega

/-- Helper: a successfully built cache entry carries exactly the boundary
list recorded by the assembly loop. -/
theorem buildSpriteData_initialFrames :
    ∀ (env : Env) (id : ActorID) (d : SpriteData),
      buildSpriteData env id = some d →
      d.mInitialFramesToRender =
        (assemble ((actorIDListForActor id).map env.pkg)).framesToRender := by
  intro env id d h
  simp only [buildSpriteData] at h
  cases ht : applyTweaks
      (assemble ((actorIDListForActor id).map env.pkg)).frames id
      ((actorIDListForActor id).map env.pkg) with
  | none =>
    rw [ht] at h
    exact absurd h (by simp)
  | some t =>
    rw [ht] at h
    obtain ⟨rfl⟩ : _ = d := by simpa using h
    rfl

/-- C10: for an identifier absent from the default-visible-frames table
(configureSprite is the identity for it) whose entry is built during this
call, the resulting Sprite's frames-to-render list equals the boundary list
recorded during assembly, with one entry per constituent part; in
particular a singleton-part identifier renders exactly frame 0. -/
theorem createSprite_default_is_part_boundaries :
    ∀ (env : Env) (cache : Cache) (id : ActorID) (s : Sprite) (c2 : Cache),
      (∀ sp : Sprite, configureSprite sp id = sp) →
      cacheFind cache id = none →
      createSprite env cache id = some (s, c2) →
      s.mFramesToRender =
        (assemble ((actorIDListForActor id).map env.pkg)).framesToRender ∧
      s.mFramesToRender.length = (actorIDListForActor id).length ∧
      ((actorIDListForActor id).length = 1 →
        s.mFramesToRender = ([0] : List Int)) := by
  intro env cache id s c2 hconf hmiss h
  unfold createSprite at h
  cases hc : createOrFindData env cache id with
  | none =>
    rw [hc] at h
    exact absurd h (by simp)
  | some p =>
    obtain ⟨data, c⟩ := p
    rw [hc] at h
    obtain ⟨hs, -⟩ :
        configureSprite
          { pDrawData := data.mDrawData
            mFramesToRender := data.mInitialFramesToRender } id = s ∧
        c = c2 := by simpa using h
    rw [hconf] at hs
    have hb : buildSpriteData env id = some data := by
      unfold createOrFindData at hc
      rw [hmiss] at hc
      cases hbd : buildSpriteData env id with
      | none =>
        rw [hbd] at hc
        exact absurd hc (by simp)
      | some d0 =>
        rw [hbd] at hc
        obtain ⟨h1, -⟩ : d0 = data ∧ (id, d0) :: cache = c := by simpa using hc
        rw [h1]
    have hinit := buildSpriteData_initialFrames env id data hb
    have hfr : s.mFramesToRender =
        (assemble ((actorIDListForActor id).map env.pkg)).framesToRender := by
      rw [← hs]
      exact hinit
    refine ⟨hfr, ?_, ?_⟩
    · rw [hfr]
      have := assemble_framesToRender_length
        ((actorIDListForActor id).map env.pkg)
        { frames := [], framesToRender := [], lastDrawOrder := 0,
          lastFrameCount := 0 }
      unfold assemble
      rw [this]
      simp
    · intro h1
      obtain ⟨x, hx⟩ := List.length_eq_one.mp h1
      rw [hfr, hx]
      rfl

/-- C10 witness: the boundary-default theorem applied to the unclassified
identifier ActorID.other 0 over the minimal environment. -/
theorem createSprite_default_is_part_boundaries_witness :
    (∀ sp : Sprite, configureSprite sp (ActorID.other 0) = sp) ∧
    ((createSprite env0 [] (ActorID.other 0)).map
        (fun p => p.1.mFramesToRender) = some ([0] : List Int)) ∧
    ((actorIDListForActor (ActorID.other 0)).length = 1) := by
  refine ⟨fun sp => rfl, ?_, rfl⟩
  have := createSprite_default_is_part_boundaries env0 []
    (ActorID.other 0)
    { pDrawData := d0ex.mDrawData, mFramesToRender := [0] } c0ex
    (fun sp => rfl) rfl rfl
  rw [show createSprite env0 [] (ActorID.other 0) =
    some ({ pDrawData := d0ex.mDrawData, mFramesToRender := [0] }, c0ex)
    from rfl]
  exact congrArg some (this.2.2 rfl)


end Rigel
